import Mathlib

/-!
Shallow embedding of the baozhenglab/oauthclient request pipeline
(src/handler.go, src/oauth.go): response classification in oauth.call,
the password and refresh grant flows, URL derivation via strings.Replace,
and the form-payload construction of the user operations.

HTTP transport and JSON parsing are external (net/http, gorequest,
encoding/json); a response is modelled as a status plus a body carrying
its raw text and its JSON parse result, and each operation is a function
of the transport outcome.
-/

namespace OAuthClient

/-- JSON value produced by parsing a response body. -/
inductive Json where
  | jnull
  | jbool (b : Bool)
  | jnum (n : Int)
  | jstr (s : String)
  | jarr (elems : List Json)
  | jobj (fields : List (String × Json))

/-- Response body: the raw text together with its JSON parse result.
The json component is none when the raw text is not valid JSON, in
particular when the body is empty. The parser itself is Go encoding/json,
external to the embedding. -/
structure Body where
  raw : String
  json : Option Json

/-- The empty response body, which is not valid JSON. -/
def emptyBody : Body := ⟨"", none⟩

/-- Field lookup in a JSON object. -/
def lookupField (fields : List (String × Json)) (key : String) : Option Json :=
  match fields with
  | [] => none
  | (k, v) :: rest => if k = key then some v else lookupField rest key

/-- Decode a string-typed struct field the way encoding/json does: a
missing field or JSON null leaves the zero value, a JSON string sets the
field, and any other JSON value is a type error. -/
def stringField (fields : List (String × Json)) (key : String) : Option String :=
  match lookupField fields key with
  | none => some ""
  | some Json.jnull => some ""
  | some (Json.jstr s) => some s
  | some _ => none

/-- Decode an integer-typed struct field, mirroring encoding/json. -/
def intField (fields : List (String × Json)) (key : String) : Option Int :=
  match lookupField fields key with
  | none => some 0
  | some Json.jnull => some 0
  | some (Json.jnum n) => some n
  | some _ => none

/-- Decode a boolean-typed struct field, mirroring encoding/json. -/
def boolField (fields : List (String × Json)) (key : String) : Option Bool :=
  match lookupField fields key with
  | none => some false
  | some Json.jnull => some false
  | some (Json.jbool b) => some b
  | some _ => none

/-- Modelled from the spec: the Token data model with access_token,
refresh_token, expires_in, token_type and the two client-side flags
has_username_password and is_new. The models source file of the
repository is not under src; the fields follow the spec and the usage
in handler.go. -/
structure Token where
  accessToken : String
  refreshTok : String
  expiresIn : Int
  tokenType : String
  hasUsernamePassword : Bool
  isNew : Bool
  deriving DecidableEq, Repr

/-- Decode a Token JSON object; the two flags are client-side and stay at
their zero value false. -/
def decodeToken (fields : List (String × Json)) : Option Token :=
  match stringField fields "access_token", stringField fields "refresh_token",
        intField fields "expires_in", stringField fields "token_type" with
  | some a, some r, some e, some ty => some ⟨a, r, e, ty, false, false⟩
  | _, _, _, _ => none

/-- Modelled from the spec: the grant envelope holding a token pointer and
an error string, as used by both grant flows in handler.go. -/
structure TokenResponse where
  token : Option Token
  error : String
  deriving DecidableEq, Repr

/-- Embeds json.Unmarshal of a grant response body into TokenResponse:
fails when the body is not valid JSON or the top level is neither an
object nor null; a null or missing token field leaves the token pointer
nil; a non-object non-null token field is a type error. -/
def decodeTokenResponse (j : Option Json) : Option TokenResponse :=
  match j with
  | none => none
  | some Json.jnull => some ⟨none, ""⟩
  | some (Json.jobj fields) =>
      (match lookupField fields "token" with
       | none => some none
       | some Json.jnull => some none
       | some (Json.jobj tf) => (decodeToken tf).map some
       | some _ => none).bind fun tok =>
        (stringField fields "error").map fun err => ⟨tok, err⟩
  | some _ => none

/-- Modelled from the spec: RemoteError carrying the http status, a
message and an optional classification code. The concrete type in the
source is sdkcm.AppError, an external dependency. -/
structure AppError where
  status : Nat
  message : String
  appCode : Option String
  deriving DecidableEq, Repr

/-- Embeds sdkcm.NewAppErr as used in handler.go: status and message,
no classification code. -/
def newAppErr (st : Nat) (msg : String) : AppError := ⟨st, msg, none⟩

/-- Embeds the WithCode combinator of sdkcm: attach a classification
code. -/
def AppError.withCode (e : AppError) (c : String) : AppError :=
  { e with appCode := some c }

/-- Modelled from the spec: decoding a resource-endpoint error body into
a RemoteError, per the documented example body with a numeric code field
and a message field. -/
def decodeAppError (j : Option Json) : Option AppError :=
  match j with
  | none => none
  | some Json.jnull => some ⟨0, "", none⟩
  | some (Json.jobj fields) =>
      match intField fields "code", stringField fields "message" with
      | some c, some m => some ⟨c.toNat, m, none⟩
      | _, _ => none
  | some _ => none

/-- Modelled from the spec: the decoded token introspection result. -/
structure TokenIntrospect where
  active : Bool
  scope : String
  clientID : String
  username : String
  exp : Int
  deriving DecidableEq, Repr

/-- Decode a TokenIntrospect from a JSON body, mirroring encoding/json. -/
def decodeTokenIntrospect (j : Option Json) : Option TokenIntrospect :=
  match j with
  | none => none
  | some Json.jnull => some ⟨false, "", "", "", 0⟩
  | some (Json.jobj fields) =>
      match boolField fields "active", stringField fields "scope",
            stringField fields "client_id", stringField fields "username",
            intField fields "exp" with
      | some a, some s, some c, some u, some e => some ⟨a, s, c, u, e⟩
      | _, _, _, _, _ => none
  | some _ => none

/-- Outcome of one HTTP round trip: a response with status code and body,
or a transport (network or connection) failure carrying its message. -/
inductive HttpResult where
  | ok (status : Nat) (body : Body)
  | fail (msg : String)

/-- Error result of oauth.call: the transport error returned by PostForm,
the json.Unmarshal error when an error body does not decode, or the
decoded AppError. -/
inductive CallError where
  | transport (msg : String)
  | decode
  | remote (e : AppError)
  deriving DecidableEq, Repr

/-- Embeds the response handling of oauth.call, handler.go lines 410 to
430: a transport error is returned as is; a status of at least 300 makes
the call decode the body as an AppError, surfacing the decode error when
that fails and the AppError otherwise; any other status returns the raw
body. -/
def callClassify (r : HttpResult) : Except CallError Body :=
  match r with
  | HttpResult.fail msg => Except.error (CallError.transport msg)
  | HttpResult.ok st b =>
      if 300 ≤ st then
        match decodeAppError b.json with
        | none => Except.error CallError.decode
        | some e => Except.error (CallError.remote e)
      else Except.ok b

/-- Body seen by a grant flow: gorequest yields the empty body on a
transport failure, and the flow discards the error list. -/
def grantBody : HttpResult → Body
  | HttpResult.ok _ b => b
  | HttpResult.fail _ => emptyBody

/-- Status seen by a grant flow: on a transport failure the gorequest
response pointer is nil, so no status is available. -/
def grantStatus : HttpResult → Option Nat
  | HttpResult.ok st _ => some st
  | HttpResult.fail _ => none

/-- Outcome of a grant flow: the returned token pointer, the decode error
wrapped by sdkcm.ErrInvalidRequest, a classified AppError, or a nil
pointer dereference panic. -/
inductive GrantOutcome where
  | ok (t : Option Token)
  | errDecode
  | errApp (e : AppError)
  | panics
  deriving DecidableEq, Repr

/-- Embeds PasswordCredentialsToken, handler.go lines 22 to 46: the body
is unmarshalled before the status is read, a failed unmarshal returns the
invalid-request decode error; a non-200 status returns an AppError built
from the envelope error and the status, with classification code
wrong_username_password; on 200 the envelope token has its two flags set
and is returned. Reading the status of a nil response, or setting flags
through a nil token pointer, dereferences nil. -/
def passwordCredentialsToken (r : HttpResult) : GrantOutcome :=
  match decodeTokenResponse (grantBody r).json with
  | none => GrantOutcome.errDecode
  | some t =>
      match grantStatus r with
      | none => GrantOutcome.panics
      | some st =>
          if st ≠ 200 then
            GrantOutcome.errApp ((newAppErr st t.error).withCode "wrong_username_password")
          else
            match t.token with
            | none => GrantOutcome.panics
            | some tok =>
                GrantOutcome.ok (some { tok with hasUsernamePassword := true, isNew := false })

/-- Embeds RefreshToken, handler.go lines 358 to 378: same shape as the
password grant but the non-200 AppError carries no classification code,
and the envelope token pointer is returned without flag changes. -/
def refreshToken (r : HttpResult) : GrantOutcome :=
  match decodeTokenResponse (grantBody r).json with
  | none => GrantOutcome.errDecode
  | some t =>
      match grantStatus r with
      | none => GrantOutcome.panics
      | some st =>
          if st ≠ 200 then GrantOutcome.errApp (newAppErr st t.error)
          else GrantOutcome.ok t.token

/-- Boolean prefix test on character lists. -/
def isPre : List Char → List Char → Bool
  | [], _ => true
  | _ :: _, [] => false
  | a :: as, b :: bs => (a == b) && isPre as bs

/-- Number of positions of l at which m occurs as a substring. -/
def occurs (m : List Char) : List Char → Nat
  | [] => if m = [] then 1 else 0
  | c :: l => (if isPre m (c :: l) = true then 1 else 0) + occurs m l

/-- Embeds strings.Replace(l, m, n, -1) for a nonempty pattern m:
replace every non-overlapping occurrence from left to right. The source
only ever calls it with the nonempty pattern token. -/
def replaceAll (m n : List Char) : List Char → List Char
  | [] => []
  | c :: rest =>
      if isPre m (c :: rest) = true ∧ m ≠ [] then
        n ++ replaceAll m n (List.drop (m.length - 1) rest)
      else
        c :: replaceAll m n rest
  termination_by l => l.length
  decreasing_by
    · simp [List.length_drop]; omega
    · simp

/-- The literal path marker that the source substitutes inside the
configured token URL. -/
def tokenMarker : List Char := "token".data

/-- URL derivation as performed at every call site in handler.go:
replace every occurrence of the marker token in the base URL by the
resource path. -/
def derive (base resource : List Char) : List Char :=
  replaceAll tokenMarker resource base

/-- Model of Go url.Values as an ordered association of keys to value
lists. -/
abbrev Values := List (String × List String)

/-- Embeds url.Values.Add: append the value v to the list held under key
k, creating the key when absent. -/
def valuesAdd (vs : Values) (k v : String) : Values :=
  match vs with
  | [] => [(k, [v])]
  | (k2, ws) :: rest =>
      if k2 = k then (k2, ws ++ [v]) :: rest else (k2, ws) :: valuesAdd rest k v

/-- Conditional Add used for a presence-encoded DTO field: the source
adds the key only when the pointer is non-nil. -/
def addOpt (vs : Values) (k : String) (o : Option String) : Values :=
  match o with
  | some v => valuesAdd vs k v
  | none => vs

/-- Modelled from the spec and the field usage in handler.go lines 88 to
116: the FindUser filter DTO, every field presence-encoded. -/
structure OAuthUserFilter where
  username : Option String
  email : Option String
  fbId : Option String
  phone : Option String
  phonePrefix : Option String
  deriving DecidableEq, Repr

/-- Embeds the payload construction of FindUser, handler.go lines 88 to
116: one Add per present field, in source order. -/
def findUserPayload (f : OAuthUserFilter) : Values :=
  addOpt (addOpt (addOpt (addOpt (addOpt [] "username" f.username)
    "email" f.email) "fb_id" f.fbId) "phone" f.phone) "phone_prefix" f.phonePrefix

/-- Modelled from the spec and the field usage in handler.go lines 253 to
302: the UpdateUser DTO, every field presence-encoded; enumeration-typed
fields are carried as their string form, as the source converts them with
a string cast when serializing. -/
structure OAuthUserUpdate where
  username : Option String
  firstName : Option String
  lastName : Option String
  gender : Option String
  address : Option String
  password : Option String
  email : Option String
  phonePrefix : Option String
  phone : Option String
  passwordConfirmation : Option String
  dobString : Option String
  fbId : Option String
  akId : Option String
  accountType : Option String
  deriving DecidableEq, Repr

/-- Embeds the payload construction of UpdateUser, handler.go lines 253
to 302: the mandatory user_id entry first, then one Add per present
field in source order; the source tests the password pointer twice, so a
present password is added twice. -/
def updateUserPayload (uid : String) (u : OAuthUserUpdate) : Values :=
  addOpt (addOpt (addOpt (addOpt (addOpt (addOpt (addOpt (addOpt (addOpt
    (addOpt (addOpt (addOpt (addOpt (addOpt (addOpt [("user_id", [uid])]
    "username" u.username)
    "first_name" u.firstName)
    "last_name" u.lastName)
    "gender" u.gender)
    "address" u.address)
    "password" u.password)
    "email" u.email)
    "phone_prefix" u.phonePrefix)
    "phone" u.phone)
    "password" u.password)
    "password_confirmation" u.passwordConfirmation)
    "dob" u.dobString)
    "fb_id" u.fbId)
    "ak_id" u.akId)
    "account_type" u.accountType

/-- Key contributed by one presence-encoded field, stated from the words
of the spec: a present field contributes its key, an absent field
contributes nothing. -/
def optKey (k : String) (o : Option String) : List String :=
  if o.isSome then [k] else []

/-- Keys of the present fields of a FindUser filter, stated from the
words of the spec. -/
def filterPresentKeys (f : OAuthUserFilter) : List String :=
  optKey "phone_prefix" f.phonePrefix ++ optKey "phone" f.phone ++
    optKey "fb_id" f.fbId ++ optKey "email" f.email ++ optKey "username" f.username

/-- Keys of the present fields of an UpdateUser DTO, stated from the
words of the spec. -/
def updatePresentKeys (u : OAuthUserUpdate) : List String :=
  optKey "account_type" u.accountType ++ optKey "ak_id" u.akId ++
    optKey "fb_id" u.fbId ++ optKey "dob" u.dobString ++
    optKey "password_confirmation" u.passwordConfirmation ++
    optKey "phone" u.phone ++ optKey "phone_prefix" u.phonePrefix ++
    optKey "email" u.email ++ optKey "password" u.password ++
    optKey "address" u.address ++ optKey "gender" u.gender ++
    optKey "last_name" u.lastName ++ optKey "first_name" u.firstName ++
    optKey "username" u.username

/-- One outgoing form request: target URL and form parameters. -/
structure Request where
  url : List Char
  params : Values
  deriving DecidableEq, Repr

/-- Embeds Introspect, handler.go lines 49 to 66: derive the introspect
URL from the token URL, post the token with an empty scope value list,
classify the response through call, then decode a TokenIntrospect. The
first component lists the requests issued. -/
def introspect (responder : Request → HttpResult) (tokenURL : List Char)
    (token : String) : List Request × Except CallError TokenIntrospect :=
  let req : Request := ⟨derive tokenURL "introspect".data, [("token", [token]), ("scope", [])]⟩
  ([req],
    match callClassify (responder req) with
    | Except.error e => Except.error e
    | Except.ok b =>
        match decodeTokenIntrospect b.json with
        | none => Except.error CallError.decode
        | some ti => Except.ok ti)

/-- Embeds RevokeToken, handler.go lines 354 to 356: return nil
unconditionally; no request is built and the transport is never
consulted. -/
def revokeToken (_responder : Request → HttpResult) (_token : String) :
    List Request × Option CallError :=
  ([], none)

lemma isPre_append (m s : List Char) : isPre m (m ++ s) = true := by
  induction m with
  | nil => rfl
  | cons c m ih => simp [isPre, ih]

lemma occurs_le_append (m a b : List Char) : occurs m b ≤ occurs m (a ++ b) := by
  induction a with
  | nil => exact Nat.le_refl _
  | cons c a ih =>
      calc occurs m b ≤ occurs m (a ++ b) := ih
        _ ≤ (if isPre m (c :: (a ++ b)) = true then 1 else 0) + occurs m (a ++ b) :=
            Nat.le_add_left _ _
        _ = occurs m ((c :: a) ++ b) := by simp [occurs]

lemma occurs_pos (m s : List Char) (hm : m ≠ []) : 1 ≤ occurs m (m ++ s) := by
  cases m with
  | nil => exact absurd rfl hm
  | cons c m2 =>
      have hp : isPre (c :: m2) (c :: (m2 ++ s)) = true := by
        have h := isPre_append (c :: m2) s
        rwa [List.cons_append] at h
      rw [List.cons_append]
      simp [occurs, hp]

lemma replaceAll_of_occurs_zero (m n l : List Char) (h : occurs m l = 0) :
    replaceAll m n l = l := by
  induction l with
  | nil => simp [replaceAll]
  | cons c rest ih =>
      by_cases hc : isPre m (c :: rest) = true
      · simp [occurs, hc] at h
      · simp [occurs, hc] at h
        simp [replaceAll, hc, ih h]

lemma replaceAll_single (m n p s : List Char) (hm : m ≠ [])
    (h : occurs m (p ++ (m ++ s)) = 1) :
    replaceAll m n (p ++ (m ++ s)) = p ++ (n ++ s) := by
  induction p with
  | nil =>
      simp only [List.nil_append] at h ⊢
      cases m with
      | nil => exact absurd rfl hm
      | cons c m2 =>
          rw [List.cons_append] at h ⊢
          have hp : isPre (c :: m2) (c :: (m2 ++ s)) = true := by
            have h2 := isPre_append (c :: m2) s
            rwa [List.cons_append] at h2
          have h1 : occurs (c :: m2) (m2 ++ s) = 0 := by
            simp [occurs, hp] at h
            exact h
          have hs : occurs (c :: m2) s = 0 :=
            Nat.le_zero.mp (h1 ▸ occurs_le_append (c :: m2) m2 s)
          simp [replaceAll, hp, List.drop_left, replaceAll_of_occurs_zero _ n _ hs]
  | cons c p2 ih =>
      rw [List.cons_append] at h ⊢
      have hge : 1 ≤ occurs m (p2 ++ (m ++ s)) :=
        le_trans (occurs_pos m s hm) (occurs_le_append m p2 (m ++ s))
      by_cases hc : isPre m (c :: (p2 ++ (m ++ s))) = true
      · simp [occurs, hc] at h
        omega
      · simp [occurs, hc] at h
        simp [replaceAll, hc, ih h]

lemma mem_keys_valuesAdd (vs : Values) (k k2 v : String) :
    k ∈ (valuesAdd vs k2 v).map Prod.fst ↔ k = k2 ∨ k ∈ vs.map Prod.fst := by
  induction vs with
  | nil => simp [valuesAdd]
  | cons hd rest ih =>
      obtain ⟨k3, ws⟩ := hd
      by_cases hk : k3 = k2
      · subst hk
        simp [valuesAdd]
      · simp [valuesAdd, hk, ih]
        tauto

lemma mem_keys_addOpt (vs : Values) (k k2 : String) (o : Option String) :
    k ∈ (addOpt vs k2 o).map Prod.fst ↔ (o.isSome = true ∧ k = k2) ∨ k ∈ vs.map Prod.fst := by
  cases o with
  | none => simp [addOpt]
  | some v =>
      simp only [addOpt, Option.isSome_some, true_and]
      exact mem_keys_valuesAdd vs k k2 v

lemma mem_optKey (k k2 : String) (o : Option String) (rest : List String) :
    k ∈ optKey k2 o ++ rest ↔ (o.isSome = true ∧ k = k2) ∨ k ∈ rest := by
  cases o <;> simp [optKey]

lemma mem_optKey_single (k k2 : String) (o : Option String) :
    k ∈ optKey k2 o ↔ o.isSome = true ∧ k = k2 := by
  cases o <;> simp [optKey]

/-- Sample grant response body: status 200 envelope with a token object
and an empty error string. -/
def grantOkBody : Body :=
  ⟨"grant-ok", some (Json.jobj
    [("token", Json.jobj [("access_token", Json.jstr "a"), ("refresh_token", Json.jstr "r"),
      ("expires_in", Json.jnum 3600), ("token_type", Json.jstr "bearer")]),
     ("error", Json.jstr "")])⟩

/-- Sample resource-endpoint error body with numeric code 404 and a
message. -/
def notFoundBody : Body :=
  ⟨"not-found", some (Json.jobj [("code", Json.jnum 404), ("message", Json.jstr "not found")])⟩

/-- Sample grant error body carrying only the error field. -/
def invalidGrantBody : Body :=
  ⟨"invalid-grant", some (Json.jobj [("error", Json.jstr "invalid_grant")])⟩

/-- Sample body whose raw text is not valid JSON. -/
def nonJsonBody : Body := ⟨"oops", none⟩

/-- UpdateUser DTO with every optional field absent. -/
def noneUpdate : OAuthUserUpdate :=
  ⟨none, none, none, none, none, none, none, none, none, none, none, none, none, none⟩

/-- Claim C1: for every password grant response with HTTP status 200
whose body decodes to the grant envelope, PasswordCredentialsToken
returns the envelope token with has_username_password set to true and
is_new set to false, and no error. -/
theorem claim1_password_grant_success (b : Body) (env : TokenResponse) (tok : Token)
    (hdec : decodeTokenResponse b.json = some env) (htok : env.token = some tok) :
    passwordCredentialsToken (HttpResult.ok 200 b) =
      GrantOutcome.ok (some { tok with hasUsernamePassword := true, isNew := false }) := by
  simp [passwordCredentialsToken, grantBody, grantStatus, hdec, htok]

/-- Witness for C1 at a concrete 200 response. -/
theorem claim1_witness :
    passwordCredentialsToken (HttpResult.ok 200 grantOkBody) =
      GrantOutcome.ok (some ⟨"a", "r", 3600, "bearer", true, false⟩) :=
  claim1_password_grant_success grantOkBody
    ⟨some ⟨"a", "r", 3600, "bearer", false, false⟩, ""⟩
    ⟨"a", "r", 3600, "bearer", false, false⟩ rfl rfl

/-- Claim C2: for every response with HTTP status at least 300, call
decodes the body as a RemoteError, surfacing the decode error when the
decode fails and the decoded RemoteError otherwise, and returns no
success bytes. -/
theorem claim2_call_error_classification (st : Nat) (b : Body) (hst : 300 ≤ st) :
    (decodeAppError b.json = none →
      callClassify (HttpResult.ok st b) = Except.error CallError.decode) ∧
    (∀ e, decodeAppError b.json = some e →
      callClassify (HttpResult.ok st b) = Except.error (CallError.remote e)) := by
  constructor
  · intro h
    simp [callClassify, hst, h]
  · intro e h
    simp [callClassify, hst, h]

/-- Witness for C2 at the documented 404 example. -/
theorem claim2_witness :
    callClassify (HttpResult.ok 404 notFoundBody) =
      Except.error (CallError.remote ⟨404, "not found", none⟩) :=
  (claim2_call_error_classification 404 notFoundBody (by decide)).2 ⟨404, "not found", none⟩ rfl

/-- Claim C3: for every response with HTTP status in the interval from
200 inclusive to 300 exclusive, call returns the raw response body and
no error. -/
theorem claim3_call_success (st : Nat) (b : Body) (h2 : 200 ≤ st) (h3 : st < 300) :
    callClassify (HttpResult.ok st b) = Except.ok b := by
  have h : ¬ 300 ≤ st := by omega
  simp [callClassify, h]

/-- Witness for C3 at a 204 response with empty body. -/
theorem claim3_witness : callClassify (HttpResult.ok 204 emptyBody) = Except.ok emptyBody :=
  claim3_call_success 204 emptyBody (by decide) (by decide)

/-- Claim C4: for every non-200 response whose body decodes to the grant
envelope, PasswordCredentialsToken returns no token and an AppError
built from the envelope error and the status, with classification code
wrong_username_password; and for every non-200 response, no AppError
returned by RefreshToken carries that code. -/
theorem claim4_grant_error_classification (st : Nat) (b : Body) (hst : st ≠ 200) :
    (∀ env, decodeTokenResponse b.json = some env →
      passwordCredentialsToken (HttpResult.ok st b) =
        GrantOutcome.errApp ((newAppErr st env.error).withCode "wrong_username_password")) ∧
    (∀ e, refreshToken (HttpResult.ok st b) = GrantOutcome.errApp e →
      e.appCode ≠ some "wrong_username_password") := by
  constructor
  · intro env h
    simp [passwordCredentialsToken, grantBody, grantStatus, h, hst]
  · intro e h
    cases hdec : decodeTokenResponse b.json with
    | none => simp [refreshToken, grantBody, hdec] at h
    | some env =>
        simp [refreshToken, grantBody, grantStatus, hdec, hst] at h
        simp [← h, newAppErr]

/-- Witness for C4 at the documented 401 invalid_grant example. -/
theorem claim4_witness :
    passwordCredentialsToken (HttpResult.ok 401 invalidGrantBody) =
      GrantOutcome.errApp ⟨401, "invalid_grant", some "wrong_username_password"⟩ ∧
    (⟨401, "invalid_grant", none⟩ : AppError).appCode ≠ some "wrong_username_password" :=
  ⟨(claim4_grant_error_classification 401 invalidGrantBody (by decide)).1
      ⟨none, "invalid_grant"⟩ rfl,
   (claim4_grant_error_classification 401 invalidGrantBody (by decide)).2
      ⟨401, "invalid_grant", none⟩ rfl⟩

/-- Claim C5, amended: the FindUser payload holds exactly the keys of
the present filter fields; the UpdateUser payload holds the mandatory
user_id key plus exactly the keys of the present DTO fields; an absent
field is never serialized. -/
theorem claim5_payload_keys :
    (∀ (f : OAuthUserFilter) (k : String),
      k ∈ (findUserPayload f).map Prod.fst ↔ k ∈ filterPresentKeys f) ∧
    (∀ (uid : String) (u : OAuthUserUpdate) (k : String),
      k ∈ (updateUserPayload uid u).map Prod.fst ↔
        k = "user_id" ∨ k ∈ updatePresentKeys u) := by
  constructor
  · intro f k
    simp only [findUserPayload, filterPresentKeys, mem_keys_addOpt, List.mem_append,
      mem_optKey_single, List.map_nil, List.not_mem_nil, or_false, false_or]
    tauto
  · intro uid u k
    constructor
    · intro h
      simp only [updateUserPayload, mem_keys_addOpt, List.map_cons, List.map_nil,
        List.mem_singleton] at h
      simp only [updatePresentKeys, List.mem_append, mem_optKey_single]
      rcases h with h|h|h|h|h|h|h|h|h|h|h|h|h|h|h|h <;> simp_all
    · intro h
      simp only [updatePresentKeys, List.mem_append, mem_optKey_single, or_assoc] at h
      simp only [updateUserPayload, mem_keys_addOpt, List.map_cons, List.map_nil,
        List.mem_singleton]
      rcases h with h|h|h|h|h|h|h|h|h|h|h|h|h|h|h <;> simp_all

/-- Counterexample for C5 as stated: with every optional field absent,
the UpdateUser payload still holds the key user_id, so the payload does
not consist of exactly the keys of the present fields. -/
theorem claim5_counterexample :
    (updateUserPayload "42" noneUpdate).map Prod.fst = ["user_id"] ∧
    updatePresentKeys noneUpdate = [] ∧
    (updateUserPayload "42" noneUpdate).map Prod.fst ≠ updatePresentKeys noneUpdate := by
  refine ⟨rfl, rfl, ?_⟩
  decide

/-- Claim C6, amended: for every base token URL that does not contain
the marker, derivation silently returns the base URL unchanged and the
request is issued against the unmodified base URL; no configuration
error arises. -/
theorem claim6_no_marker_noop (base resource : List Char)
    (h : occurs tokenMarker base = 0) :
    derive base resource = base ∧
    ∀ (responder : Request → HttpResult) (token : String),
      (introspect responder base token).1 =
        [⟨base, [("token", [token]), ("scope", [])]⟩] := by
  constructor
  · exact replaceAll_of_occurs_zero _ _ _ h
  · intro responder token
    simp [introspect, derive, replaceAll_of_occurs_zero tokenMarker ("introspect".data) base h]

/-- Witness for C6 amended at a concrete marker-free base URL. -/
theorem claim6_witness :
    occurs tokenMarker "https://x/oauth/auth".data = 0 ∧
    derive "https://x/oauth/auth".data "introspect".data = "https://x/oauth/auth".data :=
  ⟨by decide, (claim6_no_marker_noop "https://x/oauth/auth".data "introspect".data (by decide)).1⟩

/-- Counterexample for C6 as stated: with a marker-free base URL the
derivation is a silent no-op and Introspect issues its request against
the unmodified base URL, instead of any precondition failure. -/
theorem claim6_counterexample :
    (introspect (fun _ => HttpResult.ok 200 emptyBody) "https://x/oauth/auth".data "tok").1 =
      [⟨"https://x/oauth/auth".data, [("token", ["tok"]), ("scope", [])]⟩] := by
  simp [introspect, derive,
    replaceAll_of_occurs_zero tokenMarker ("introspect".data) ("https://x/oauth/auth".data)
      (by decide)]

/-- Claim C7: for every base token URL containing the marker token
exactly once and every resource path, derivation replaces the marker
with the resource path. -/
theorem claim7_derive_replaces_marker (base p s resource : List Char)
    (hb : base = p ++ (tokenMarker ++ s)) (h1 : occurs tokenMarker base = 1) :
    derive base resource = p ++ (resource ++ s) := by
  subst hb
  exact replaceAll_single tokenMarker resource p s (by decide) h1

/-- Witness for C7 at the documented example. -/
theorem claim7_witness :
    occurs tokenMarker "https://x/oauth/token".data = 1 ∧
    derive "https://x/oauth/token".data "users/42".data = "https://x/oauth/users/42".data := by
  constructor
  · decide
  · have h := claim7_derive_replaces_marker "https://x/oauth/token".data
      "https://x/oauth/".data [] "users/42".data (by decide) (by decide)
    rw [h]
    decide

/-- Claim C8, amended: operations through the Authenticated Caller
surface a transport failure immediately as a transport error; the two
grant flows discard the transport error and return the invalid-request
decode error produced by the empty body; nothing is retried. -/
theorem claim8_transport_surfacing :
    (∀ msg, callClassify (HttpResult.fail msg) = Except.error (CallError.transport msg)) ∧
    (∀ msg, passwordCredentialsToken (HttpResult.fail msg) = GrantOutcome.errDecode) ∧
    (∀ msg, refreshToken (HttpResult.fail msg) = GrantOutcome.errDecode) :=
  ⟨fun _ => rfl, fun _ => rfl, fun _ => rfl⟩

/-- Counterexample for C8 as stated: a transport failure of the password
grant is not surfaced as a transport error; the flow discards the error
and reports the invalid-request decode error of the empty body. -/
theorem claim8_counterexample :
    passwordCredentialsToken (HttpResult.fail "connection refused") = GrantOutcome.errDecode :=
  rfl

/-- Claim C9: RevokeToken returns no error and issues zero requests, for
every transport and every token. -/
theorem claim9_revoke_noop (responder : Request → HttpResult) (token : String) :
    revokeToken responder token = ([], none) :=
  rfl

/-- Claim C10: both grant flows decode the body before inspecting the
status, so a body that does not decode to the grant envelope yields the
invalid-request decode error at every status, never the classified
RemoteError. -/
theorem claim10_decode_before_status (st : Nat) (b : Body)
    (h : decodeTokenResponse b.json = none) :
    passwordCredentialsToken (HttpResult.ok st b) = GrantOutcome.errDecode ∧
    refreshToken (HttpResult.ok st b) = GrantOutcome.errDecode := by
  constructor <;> simp [passwordCredentialsToken, refreshToken, grantBody, h]

/-- Witness for C10 at a non-JSON body with a non-200 status. -/
theorem claim10_witness :
    passwordCredentialsToken (HttpResult.ok 502 nonJsonBody) = GrantOutcome.errDecode ∧
    refreshToken (HttpResult.ok 502 nonJsonBody) = GrantOutcome.errDecode :=
  claim10_decode_before_status 502 nonJsonBody rfl

end OAuthClient
